import Mathlib

/-!
Verification of the Karina-Chat patient-simulation app against its
specification.  The application keeps all per-user data in a key-value
session store (Streamlit `st.session_state`); we embed that store as an
association list from string keys to a small universe of values, and we
embed each Python function the claims mention as a Lean function on that
store.  External effects (the OpenAI client, the Supabase tables, random
sampling) are passed in as explicit parameters, so every definition is
executable.
-/

/-- Python `str.strip` whitespace set: space, tab, newline, carriage
return, vertical tab, form feed. -/
def isPyWhitespace (c : Char) : Bool :=
  c = ' ' || c = '\t' || c = '\n' || c = '\r' || c = '\x0b' || c = '\x0c'

/-- Python `str.strip()`: drop leading and trailing whitespace. -/
def pyStrip (s : String) : String :=
  ⟨((s.data.dropWhile isPyWhitespace).reverse.dropWhile isPyWhitespace).reverse⟩

/-- Python `str.lower()` (ASCII part, which is all the code compares). -/
def pyLower (s : String) : String :=
  ⟨s.data.map Char.toLower⟩

/-- Python `str.startswith(pre)`. -/
def pyStartsWith (s pre : String) : Bool :=
  pre.data.isPrefixOf s.data

/-- Values stored in the Streamlit session state by the code under
verification: strings, non-negative round counters, Python ints, bools,
`None`, the `token_sums` dict with its three integer entries, and the chat
message list (role, content). -/
inductive Val where
  | vStr : String → Val
  | vNat : Nat → Val
  | vInt : Int → Val
  | vBool : Bool → Val
  | vNone : Val
  | vSums : Int → Int → Int → Val
  | vMsgs : List (String × String) → Val
deriving DecidableEq

/-- Python truthiness (`if value:`) for the stored values. -/
def Val.truthy : Val → Bool
  | .vStr s => s ≠ ""
  | .vNat n => n ≠ 0
  | .vInt i => i ≠ 0
  | .vBool b => b
  | .vNone => false
  | .vSums _ _ _ => true
  | .vMsgs l => !l.isEmpty

/-- The session state: a string-keyed store, embedded as an association
list (`st.session_state`). -/
abbrev Session := List (String × Val)

/-- `st.session_state.get(k)` / `st.session_state[k]`. -/
def Session.lookup : Session → String → Option Val
  | [], _ => none
  | (k', v) :: rest, k => if k' = k then some v else Session.lookup rest k

/-- `st.session_state.pop(k, None)`, dropping every binding of `k`. -/
def Session.erase (s : Session) (k : String) : Session :=
  s.filter (fun p => p.1 != k)

/-- `st.session_state[k] = v`. -/
def Session.set (s : Session) (k : String) (v : Val) : Session :=
  (k, v) :: s.erase k

/-- `k in st.session_state`. -/
def Session.containsKey (s : Session) (k : String) : Bool :=
  (s.lookup k).isSome

/-- `st.session_state.get(k, "")` at a string-valued key. -/
def Session.getStr (s : Session) (k : String) : String :=
  match s.lookup k with
  | some (.vStr t) => t
  | _ => ""

/-- `st.session_state.get(k, d)` at an integer-counter key. -/
def Session.getNat (s : Session) (k : String) (d : Nat) : Nat :=
  match s.lookup k with
  | some (.vNat n) => n
  | _ => d

/-- `st.session_state.get(k, False)` at a boolean flag key. -/
def Session.getBool (s : Session) (k : String) : Bool :=
  match s.lookup k with
  | some (.vBool b) => b
  | _ => false

/-- The chat history `st.session_state.messages` (role, content). -/
def Session.getMsgs (s : Session) (k : String) : List (String × String) :=
  match s.lookup k with
  | some (.vMsgs l) => l
  | _ => []

/-! ## module/token_counter.py -/

/-- Python `int(x or 0)` on the optional token counts handed to
`add_usage`: `None` and `0` both become `0`, any other int is kept. -/
def pyIntOr0 : Option Int → Int
  | some n => n
  | none => 0

/-- `init_token_counters` (module/token_counter.py, lines 3-6): create the
`token_sums` dict with zero entries once per session. -/
def init_token_counters (s : Session) : Session :=
  if s.containsKey "token_sums" then s
  else s.set "token_sums" (.vSums 0 0 0)

/-- `add_usage` (module/token_counter.py, lines 8-14): initialise the sums
if absent, then add the three values onto the stored sums.  The fallthrough
branch (a non-dict stored under `token_sums`) would raise a `TypeError` in
Python and is left as the identity here. -/
def add_usage (prompt_tokens completion_tokens total_tokens : Option Int)
    (s : Session) : Session :=
  let s1 := if s.containsKey "token_sums" then s else init_token_counters s
  match s1.lookup "token_sums" with
  | some (.vSums p c t) =>
      s1.set "token_sums"
        (.vSums (p + pyIntOr0 prompt_tokens) (c + pyIntOr0 completion_tokens)
          (t + pyIntOr0 total_tokens))
  | _ => s1

/-- `get_token_sums` (module/token_counter.py, lines 16-24): initialise if
absent and return the three stored sums.  `none` models the `TypeError`
Python would raise if `token_sums` held a non-dict. -/
def get_token_sums (s : Session) : Option (Session × Int × Int × Int) :=
  let s1 := if s.containsKey "token_sums" then s else init_token_counters s
  match s1.lookup "token_sums" with
  | some (.vSums p c t) => some (s1, p, c, t)
  | _ => none

/-! ## module/feedback_mode.py -/

def FEEDBACK_MODE_CHATGPT : String := "ChatGPT"

def FEEDBACK_MODE_AMBOSS_CHATGPT : String := "Amboss_ChatGPT"

/-- `_AVAILABLE_MODES` (module/feedback_mode.py, line 32). -/
def availableModes : List String := [FEEDBACK_MODE_CHATGPT, FEEDBACK_MODE_AMBOSS_CHATGPT]

/-- `_is_valid_mode` (module/feedback_mode.py, lines 35-38) applied to a
session value: only a stored string can be a member of the mode list. -/
def is_valid_mode : Option Val → Bool
  | some (.vStr v) => availableModes.contains v
  | _ => false

/-- Result of `determine_feedback_mode`: the returned mode, the updated
session, and whether `clear_feedback_mode_fix()` was invoked on the
persistent store. -/
structure FeedbackModeResult where
  mode : String
  session : Session
  clearedFix : Bool
deriving DecidableEq

/-- `determine_feedback_mode` (module/feedback_mode.py, lines 41-79).
`persisted_active`/`persisted_mode` stand for the pair returned by
`get_feedback_mode_fix_state()` (module/fall_config.py, lines 275-282,
reading the external Supabase table), and `randomPick` stands for
`random.choice(_AVAILABLE_MODES)` (`true` picks `ChatGPT`). -/
def determine_feedback_mode (persisted_active : Bool) (persisted_mode : String)
    (randomPick : Bool) (s : Session) : FeedbackModeResult :=
  let override := s.lookup "feedback_mode_override"
  if is_valid_mode override then
    match override with
    | some (.vStr ov) => ⟨ov, s.set "feedback_mode" (.vStr ov), false⟩
    | _ => ⟨"", s, false⟩
  else
    if persisted_active && is_valid_mode (some (.vStr persisted_mode)) then
      ⟨persisted_mode, s.set "feedback_mode" (.vStr persisted_mode), false⟩
    else
      let cleared := persisted_active && !is_valid_mode (some (.vStr persisted_mode))
      let current := s.lookup "feedback_mode"
      if is_valid_mode current then
        match current with
        | some (.vStr cur) => ⟨cur, s.set "feedback_mode" (.vStr cur), cleared⟩
        | _ => ⟨"", s, cleared⟩
      else
        let mode := if randomPick then FEEDBACK_MODE_CHATGPT else FEEDBACK_MODE_AMBOSS_CHATGPT
        ⟨mode, s.set "feedback_mode" (.vStr mode), cleared⟩

/-! ## feedbackmodul.py -/

/-- The raw-payload fallback of `_build_amboss_context` (feedbackmodul.py,
lines 51-65): a truthy `amboss_result` yields a hint with the first
`_MAX_AMBOSS_RAW_SNIPPET = 400` characters of `json.dumps(·)` (stood for by
`jsonDumps`); otherwise the fixed short notice. -/
def amboss_fallback (jsonDumps : Val → String) (s : Session) : String :=
  match s.lookup "amboss_result" with
  | some raw =>
    if raw.truthy then
      "Hinweis: Keine AMBOSS-Zusammenfassung verfügbar. Kurz-Auszug aus dem Payload zur Orientierung: "
        ++ (⟨(jsonDumps raw).data.take 400⟩ : String)
    else
      "Hinweis: Für dieses Feedback liegt aktuell keine AMBOSS-Zusammenfassung vor. Bitte prüfen Sie den Vorlauf bei Bedarf."
  | none =>
    "Hinweis: Für dieses Feedback liegt aktuell keine AMBOSS-Zusammenfassung vor. Bitte prüfen Sie den Vorlauf bei Bedarf."

/-- `_build_amboss_context` (feedbackmodul.py, lines 25-65):
`_MIN_AMBOSS_SUMMARY_CHARS` is 80; a stored string summary is stripped and
used (long form directly, short non-empty form behind a hint), otherwise
the raw-payload fallback applies. -/
def build_amboss_context (jsonDumps : Val → String) (s : Session) : String :=
  match s.lookup "amboss_payload_summary" with
  | some (.vStr summary) =>
    let summary_clean := pyStrip summary
    if 80 ≤ summary_clean.data.length then summary_clean
    else if summary_clean ≠ "" then
      "Hinweis: Die AMBOSS-Zusammenfassung ist unerwartet kurz. Inhalt: " ++ summary_clean
    else amboss_fallback jsonDumps s
  | _ => amboss_fallback jsonDumps s

/-- The single f-string prompt of `feedback_erzeugen` (feedbackmodul.py,
lines 111-154) before the optional AMBOSS block.  `phraseDat` and
`phraseGen` stand for the two `patient_forms.phrase(...)` calls. -/
def feedback_basis_prompt (phraseDat phraseGen final_diagnose therapie_vorschlag
    user_ddx2 diagnostik_eingaben gpt_befunde koerper_befund user_verlauf : String)
    (anzahl_termine : Nat) (diagnose_szenario : String) : String :=
  "\nEin Medizinstudierender hat eine vollständige virtuelle Fallbesprechung mit "
    ++ phraseDat
    ++ " durchgeführt. Du bist ein erfahrener medizinischer Prüfer.\n\nBeurteile ausschließlich die Eingaben und Entscheidungen des Studierenden – NICHT die Antworten "
    ++ phraseGen
    ++ " oder automatisch generierte Inhalte.\n\nDie zugrunde liegende Erkrankung im Szenario lautet: **"
    ++ diagnose_szenario
    ++ "**.\n\nHier ist der Gesprächsverlauf mit den Fragen und Aussagen des Nutzers:\n"
    ++ user_verlauf
    ++ "\n\nGPT-generierte Befunde (nur als Hintergrund, bitte nicht bewerten):\n"
    ++ koerper_befund ++ "\n" ++ gpt_befunde
    ++ "\n\nErhobene Differentialdiagnosen (Nutzerangaben):\n"
    ++ user_ddx2
    ++ "\n\nGeplante diagnostische Maßnahmen (Nutzerangaben):\n"
    ++ diagnostik_eingaben
    ++ "\n\nFinale Diagnose (Nutzereingabe):\n"
    ++ final_diagnose
    ++ "\n\nTherapiekonzept (Nutzereingabe):\n"
    ++ therapie_vorschlag
    ++ "\n\nDie Fallbearbeitung umfasste " ++ toString anzahl_termine
    ++ " Diagnostik-Termine.\n\nStrukturiere dein Feedback klar, hilfreich und differenziert – wie ein persönlicher Kommentar bei einer mündlichen Prüfung, schreibe in der zweiten Person.\n\nNenne vorab das zugrunde liegende Szenario. Gib an, ob die Diagnose richtig gestellt wurde. Gib an, wieviele Termine für die Diagnostik benötigt wurden.\n\n1. Wurden im Gespräch alle relevanten anamnestischen Informationen erhoben?\n2. War die gewählte Diagnostik nachvollziehbar, vollständig und passend zur Szenariodiagnose **"
    ++ diagnose_szenario
    ++ "**?\n3. War die gewählte Diagnostik nachvollziehbar, vollständig und passend zu den Differentialdiagnosen **"
    ++ user_ddx2
    ++ "**?\n4. Beurteile, ob die diagnostische Strategie sinnvoll aufgebaut war, beachte dabei die Zahl der notwendigen Untersuchungstermine. Gab es unnötige Doppeluntersuchungen, sinnvolle Eskalation, fehlende Folgeuntersuchungen? Beziehe dich ausdrücklich auf die Reihenfolge und den Inhalt der Runden.\n5. Ist die finale Diagnose nachvollziehbar, insbesondere im Hinblick auf Differenzierung zu anderen Möglichkeiten?\n6. Ist das Therapiekonzept leitliniengerecht, plausibel und auf die Diagnose abgestimmt?\n\n**Berücksichtige und kommentiere zusätzlich**:\n- ökologische Aspekte (z. B. überflüssige Diagnostik, zuviele Anforderungen, zuviele Termine, CO₂-Bilanz, Strahlenbelastung bei CT oder Röntgen, Ressourcenverbrauch).\n- ökonomische Sinnhaftigkeit (Kosten-Nutzen-Verhältnis)\n- Beachte und begründe auch, warum zuwenig Diagnostik unwirtschaftlich und nicht nachhaltig sein kann.\n"

/-- The block appended to the prompt when an AMBOSS context is present
(feedbackmodul.py, lines 156-161). -/
def amboss_block (amboss_context : String) : String :=
  "\n\nZusätzliche Fachinformationen (AMBOSS):\n" ++ amboss_context ++ "\n"

/-- The prompt-assembly portion of `feedback_erzeugen` (feedbackmodul.py,
lines 85-161, online path): determine the mode, build the base prompt, and
append the AMBOSS context only in the combined mode.  Returns the final
prompt together with the session left by `determine_feedback_mode`. -/
def feedback_erzeugen_prompt (jsonDumps : Val → String)
    (persisted_active : Bool) (persisted_mode : String) (randomPick : Bool)
    (phraseDat phraseGen final_diagnose therapie_vorschlag user_ddx2
      diagnostik_eingaben gpt_befunde koerper_befund user_verlauf : String)
    (anzahl_termine : Nat) (diagnose_szenario : String) (s : Session) :
    String × Session :=
  let fm := determine_feedback_mode persisted_active persisted_mode randomPick s
  let prompt := feedback_basis_prompt phraseDat phraseGen final_diagnose
    therapie_vorschlag user_ddx2 diagnostik_eingaben gpt_befunde koerper_befund
    user_verlauf anzahl_termine diagnose_szenario
  let amboss_context :=
    if fm.mode = FEEDBACK_MODE_AMBOSS_CHATGPT then build_amboss_context jsonDumps fm.session
    else ""
  let prompt := if amboss_context ≠ "" then prompt ++ amboss_block amboss_context else prompt
  (prompt, fm.session)

/-! ## diagnostikmodul.py -/

/-- One `### Termin i` passage as appended by
`aktualisiere_diagnostik_zusammenfassung` (diagnostikmodul.py, lines 21-31). -/
def terminBlock (i : Nat) (text : String) : String :=
  "\n---\n### Termin " ++ toString i ++ "\n" ++ text ++ "\n"

/-- `aktualisiere_diagnostik_zusammenfassung` (diagnostikmodul.py, lines
11-34): rebuild the two cumulative summaries from Termin 1
(`user_diagnostics` / `befunde`) and the stored rounds
`diagnostik_runde_i` / `befunde_runde_i` for `i` in
`range(2, get("diagnostik_runden_gesamt", start_runde - 1) + 1)`, then
store the stripped texts. -/
def aktualisiere_diagnostik_zusammenfassung (start_runde : Nat) (s : Session) : Session :=
  let erster_diag := s.getStr "user_diagnostics"
  let erster_befund := s.getStr "befunde"
  let init_pair : String × String :=
    if erster_diag ≠ "" || erster_befund ≠ "" then
      (terminBlock 1 erster_diag, terminBlock 1 erster_befund)
    else ("", "")
  let n := s.getNat "diagnostik_runden_gesamt" (start_runde - 1)
  let runden := List.range' 2 (n + 1 - 2)
  let final_pair := runden.foldl (fun (acc : String × String) i =>
      let diag := s.getStr ("diagnostik_runde_" ++ toString i)
      let bef := s.getStr ("befunde_runde_" ++ toString i)
      (if diag ≠ "" then acc.1 ++ terminBlock i diag else acc.1,
       if bef ≠ "" then acc.2 ++ terminBlock i bef else acc.2))
    init_pair
  (s.set "diagnostik_eingaben_kumuliert" (.vStr (pyStrip final_pair.1))).set
    "gpt_befunde_kumuliert" (.vStr (pyStrip final_pair.2))

/-- The submission handler inside `diagnostik_und_befunde_routine`
(diagnostikmodul.py, lines 69-93) for round `runde`, entered when the form
was submitted: if the entered text is non-blank it is passed through
`sprach_check` (`sprachCheck`, an LLM call) and stored, the generated
findings (`befund`, from `generiere_befund`) are stored for the round, the
round counter is set to this round, and the `diagnostik_aktiv` flag is
reset. -/
def submit_diagnostik_routine (sprachCheck : String → String) (runde : Nat)
    (eingabe befund : String) (s : Session) : Session :=
  if pyStrip eingabe ≠ "" then
    let neue_diagnostik := sprachCheck (pyStrip eingabe)
    let s := s.set ("diagnostik_runde_" ++ toString runde) (.vStr neue_diagnostik)
    let s := s.set ("befunde_runde_" ++ toString runde) (.vStr befund)
    let s := s.set "diagnostik_runden_gesamt" (.vNat runde)
    s.set "diagnostik_aktiv" (.vBool false)
  else s

/-- The submission handler of the extra-appointment form on the main page
(src/Karina_Chat_2.py, lines 535-568) and on the Diagnostik-und-Befunde
page (src/pages/4_Diagnostik_und_Befunde.py, lines 181-212): the new round
is `get("diagnostik_runden_gesamt", 1) + 1`; on a non-blank submission the
stripped text and the generated findings are stored for that round, the
round counter becomes the new round and `diagnostik_aktiv` is reset. -/
def submit_diagnostik_hauptseite (eingabe befund : String) (s : Session) : Session :=
  let neuer_termin := s.getNat "diagnostik_runden_gesamt" 1 + 1
  if pyStrip eingabe ≠ "" then
    let neue_diagnostik := pyStrip eingabe
    let s := s.set ("diagnostik_runde_" ++ toString neuer_termin) (.vStr neue_diagnostik)
    let s := s.set ("befunde_runde_" ++ toString neuer_termin) (.vStr befund)
    let s := s.set "diagnostik_runden_gesamt" (.vNat neuer_termin)
    s.set "diagnostik_aktiv" (.vBool false)
  else s

/-! ## module/fallverwaltung.py -/

/-- `_FALL_SESSION_KEYS` (module/fallverwaltung.py, lines 51-85). -/
def fallSessionKeys : List String :=
  ["diagnose_szenario", "diagnose_features", "koerper_befund_tip",
   "patient_alter_basis", "patient_gender", "patient_name", "patient_age",
   "patient_job", "patient_verhalten_memo", "patient_verhalten",
   "patient_hauptanweisung", "SYSTEM_PROMPT", "startzeit",
   "start_untersuchung", "untersuchung_done", "diagnostik_aktiv",
   "diagnostik_runden_gesamt", "messages", "koerper_befund", "user_ddx2",
   "user_diagnostics", "befunde", "diagnostik_eingaben", "gpt_befunde",
   "diagnostik_eingaben_kumuliert", "gpt_befunde_kumuliert",
   "final_diagnose", "therapie_vorschlag", "final_feedback",
   "feedback_prompt_final", "feedback_row_id", "student_evaluation_done",
   "token_sums"]

/-- The test of the removal loop in `reset_fall_session_state`
(module/fallverwaltung.py, line 714): a key belongs to the case when it is
in `_FALL_SESSION_KEYS` or starts with one of the `_FALL_SESSION_PREFIXES`
(lines 87-90). -/
def is_fall_session_key (k : String) : Bool :=
  fallSessionKeys.contains k || pyStartsWith k "diagnostik_runde_"
    || pyStartsWith k "befunde_runde_"

/-- `reset_fall_session_state` (module/fallverwaltung.py, lines 707-715):
walk over the stored keys and pop every case-related key that is not named
in `keep_keys`; popping each matching key from the store is the same as
filtering the store once. -/
def reset_fall_session_state (keep_keys : List String) (s : Session) : Session :=
  s.filter (fun p => keep_keys.contains p.1 || !is_fall_session_key p.1)

/-- One row of the `fallbeispiele` case table, with the DataFrame columns
the verified functions read (module/fallverwaltung.py, lines 33-44 and
402-418). -/
structure FallRow where
  id : Nat
  szenario : String
  beschreibung : String
  koerperliche_untersuchung : String
  alter : Option Int
  geschlecht : String
deriving DecidableEq

/-- The `df.sample(1).iloc[0]` branch of `_waehle_fall`
(module/fallverwaltung.py, line 726): one row drawn from the table, the
draw given by `sampleIdx`; on an empty table pandas raises `ValueError`. -/
def waehle_fall_sample (df : List FallRow) (sampleIdx : Nat) : Except String FallRow :=
  match df[sampleIdx % df.length]? with
  | some row => .ok row
  | none => .error "Cannot take a larger sample than population when replace is False"

/-- `_waehle_fall` (module/fallverwaltung.py, lines 718-726): with a truthy
scenario name, the first row whose `Szenario` column equals the name, and a
`ValueError` when none matches (the quotation marks of the original message
around the name are omitted here); otherwise a sampled row. -/
def waehle_fall (df : List FallRow) (szenario : Option String) (sampleIdx : Nat) :
    Except String FallRow :=
  match szenario with
  | some sz =>
    if sz ≠ "" then
      match df.find? (fun r => r.szenario == sz) with
      | some row => .ok row
      | none => .error ("Szenario " ++ sz ++ " nicht in der Tabelle gefunden.")
    else waehle_fall_sample df sampleIdx
  | none => waehle_fall_sample df sampleIdx

/-- `fallauswahl_prompt` (module/fallverwaltung.py, lines 350-418, the part
up to and including the session writes of the selected case).  On an empty
table, or when `_waehle_fall` raises, an error is shown and only the status
record `amboss_persist_info` is written before returning.  On success the
row fields are copied into the session (`Szenario`, `Beschreibung`,
`Körperliche Untersuchung`, `Alter`, `Geschlecht`); `genderCoin` stands for
`random.choice(["m", "w"])` used when the row says `n`.  The subsequent
AMBOSS retrieval (lines 429-576) performs network I/O and writes only
`amboss_*` keys; it is not modelled. -/
def fallauswahl_prompt (df : List FallRow) (szenario : Option String)
    (sampleIdx : Nat) (genderCoin : Bool) (s : Session) : Session :=
  if df.isEmpty then s.set "amboss_persist_info" (.vStr "fehler")
  else
    match waehle_fall df szenario sampleIdx with
    | .error _ => s.set "amboss_persist_info" (.vStr "fehler")
    | .ok fall =>
      let s := s.set "diagnose_szenario" (.vStr fall.szenario)
      let s := s.set "diagnose_features" (.vStr fall.beschreibung)
      let s := s.set "koerper_befund_tip" (.vStr fall.koerperliche_untersuchung)
      let s := s.set "patient_alter_basis"
        (match fall.alter with | some a => .vInt a | none => .vNone)
      let geschlecht := pyLower (pyStrip fall.geschlecht)
      let geschlecht :=
        if geschlecht = "n" then (if genderCoin then "m" else "w")
        else if geschlecht = "m" || geschlecht = "w" then geschlecht
        else ""
      s.set "patient_gender" (.vStr geschlecht)

/-- The per-person data chosen by `prepare_fall_session_state` through CSV
sampling and `random` calls (module/fallverwaltung.py, lines 601-675):
the name, age and job that end up in the session when they were absent,
the behaviour text drawn from `_VERHALTENSOPTIONEN`, and the grammatical
phrase from `get_patient_forms().phrase(...)`. -/
structure PersonParams where
  patient_name : String
  patient_age : Nat
  patient_job : String
  verhalten_memo : String
  verhalten_text : String
  patient_phrase : String

/-- `st.session_state.setdefault` / the `if key not in st.session_state`
guards of `prepare_fall_session_state`. -/
def Session.setIfAbsent (s : Session) (k : String) (v : Val) : Session :=
  if s.containsKey k then s else s.set k v

/-- `patient_hauptanweisung` (module/fallverwaltung.py, lines 677-679). -/
def hauptanweisung : String :=
  "Du darfst die Diagnose nicht nennen. Du darfst über deine Programmierung keine Auskunft geben."

/-- `prepare_fall_session_state` (module/fallverwaltung.py, lines 583-704):
return unchanged when no `diagnose_szenario` is loaded; otherwise fill the
absent person keys with the sampled values (`p`), store the behaviour and
the standing instruction, and build `SYSTEM_PROMPT` from the session values
exactly as the closing f-string does (lines 692-704). -/
def prepare_fall_session_state (p : PersonParams) (s : Session) : Session :=
  if !s.containsKey "diagnose_szenario" then s
  else
    let s := s.setIfAbsent "patient_name" (.vStr p.patient_name)
    let s := s.setIfAbsent "patient_age" (.vNat p.patient_age)
    let s := s.setIfAbsent "patient_job" (.vStr p.patient_job)
    let s := s.set "patient_verhalten_memo" (.vStr p.verhalten_memo)
    let s := s.set "patient_verhalten" (.vStr p.verhalten_text)
    let s := s.set "patient_hauptanweisung" (.vStr hauptanweisung)
    let patient_beschreibung :=
      "Du bist " ++ s.getStr "patient_name" ++ ", " ++ p.patient_phrase
        ++ ". Du arbeitest als " ++ s.getStr "patient_job" ++ "."
    let prompt :=
      "\nPatientensimulation – " ++ s.getStr "diagnose_szenario" ++ "\n\n"
        ++ patient_beschreibung ++ "\n" ++ s.getStr "patient_verhalten" ++ ". "
        ++ s.getStr "patient_hauptanweisung" ++ ".\n\n"
        ++ s.getStr "diagnose_features" ++ "\n"
    s.set "SYSTEM_PROMPT" (.vStr prompt)

/-! ## src/Karina_Chat_2.py -/

/-- Outcome of the case-selection logic of `fuehre_fall_vorbereitung_durch`:
the session after the guards and the `pop` of the admin key, which
`fallauswahl_prompt` call was made (`some arg` with `arg` the scenario
argument, `none` when no selection ran), whether `clear_fixed_scenario()`
was invoked, and whether the empty-table error path was taken. -/
structure FallVorbereitung where
  session : Session
  auswahl : Option (Option String)
  fixierung_geloescht : Bool
  tabelle_leer : Bool
deriving DecidableEq

/-- The set comprehension over `szenario_df["Szenario"]`
(src/Karina_Chat_2.py, lines 249-254): the stripped, non-empty scenario
names of the loaded table. -/
def verfuegbare_szenarien (df : List FallRow) : List String :=
  (df.map (fun r => pyStrip r.szenario)).filter (fun t => t ≠ "")

/-- The case-selection part of `fuehre_fall_vorbereitung_durch`
(src/Karina_Chat_2.py, lines 211-266): skip when already done, report when
the table is empty, pop the admin override, and dispatch with the priority
admin override > valid fixation > fixation cleared plus random > random
only without a loaded case.  `fixed`/`fixed_szenario` stand for the pair
returned by `get_fall_fix_state()` (module/fall_config.py, lines 225-232,
reading the external Supabase table). -/
def fuehre_fall_vorbereitung_durch (fixed : Bool) (fixed_szenario : String)
    (df : List FallRow) (s : Session) : FallVorbereitung :=
  if s.getBool "fall_vorbereitung_abgeschlossen" then ⟨s, none, false, false⟩
  else if df.isEmpty then
    ⟨s.set "fall_vorbereitung_abgeschlossen" (.vBool true), none, false, true⟩
  else
    let admin := s.lookup "admin_selected_szenario"
    let s1 := s.erase "admin_selected_szenario"
    let weiter : FallVorbereitung :=
      if fixed && fixed_szenario ≠ "" then
        if (verfuegbare_szenarien df).contains fixed_szenario then
          ⟨s1, some (some fixed_szenario), false, false⟩
        else ⟨s1, some none, true, false⟩
      else if s1.containsKey "diagnose_szenario" then ⟨s1, none, false, false⟩
      else ⟨s1, some none, false, false⟩
    match admin with
    | some (.vStr a) => if a ≠ "" then ⟨s1, some (some a), false, false⟩ else weiter
    | _ => weiter

/-- `anzahl_fragen` (src/Karina_Chat_2.py, line 384): the number of chat
messages whose role is `user`. -/
def anzahl_fragen (s : Session) : Nat :=
  ((s.getMsgs "messages").filter (fun m => m.1 == "user")).length

/-- Which of the three externally visible stage actions the main page can
take during one rerun. -/
structure MainPageGates where
  koerperbefund_generierung : Bool
  feedback_generierung : Bool
  download_angeboten : Bool

/-- The gating conditions of the main page (src/Karina_Chat_2.py):
`generiere_koerperbefund_interaktiv` is reachable only inside the
`anzahl_fragen > 0` branch, either on the automatic path (lines 389-393,
no findings yet and no generation running) or through the button (lines
404-408, findings key absent, button enabled and pressed);
`feedback_erzeugen` is reachable only when both the final diagnosis and the
therapy plan are non-blank, no feedback exists yet and the button was
pressed (lines 602-650); the download button is rendered only when
`final_feedback` is a session key (line 665).  `untersuchungButton` and
`feedbackButton` model the two `st.button` click events. -/
def main_page_gates (untersuchungButton feedbackButton : Bool) (s : Session) :
    MainPageGates :=
  let fragen := anzahl_fragen s
  let generating := s.getBool "koerper_befund_generating"
  let koerper :=
    decide (0 < fragen) &&
      ((!(match s.lookup "koerper_befund" with
          | some v => v.truthy
          | none => false) && !generating)
        || (!s.containsKey "koerper_befund" && untersuchungButton && !generating))
  let diagnose_eingegeben := pyStrip (s.getStr "final_diagnose") ≠ ""
  let therapie_eingegeben := pyStrip (s.getStr "therapie_vorschlag") ≠ ""
  let feedback :=
    (diagnose_eingegeben && therapie_eingegeben)
      && !(pyStrip (s.getStr "final_feedback") ≠ "") && feedbackButton
  { koerperbefund_generierung := koerper
    feedback_generierung := feedback
    download_angeboten := s.containsKey "final_feedback" }

/-! ## Specification-side formulations -/

/-- Concatenation of a list of text passages (used to state what the
cumulative summaries contain). -/
def joinBlocks : List String → String
  | [] => ""
  | x :: xs => x ++ joinBlocks xs

/-- The cumulative summary as the specification describes it: the stripped
concatenation of a `### Termin 1` block (present exactly when
`first_included`) followed by one `### Termin i` block for each `i` from 2
to `n` whose text is non-empty, in increasing order of `i`. -/
def kumulierte_bloecke (first_text : String) (first_included : Bool)
    (round_text : Nat → String) (n : Nat) : String :=
  pyStrip ((if first_included then terminBlock 1 first_text else "")
    ++ joinBlocks (((List.range' 2 (n + 1 - 2)).filter
        (fun i => round_text i ≠ "")).map (fun i => terminBlock i (round_text i))))

/-- Truthiness of the admin override `admin_selected_szenario` as tested by
`if admin_szenario:` (src/Karina_Chat_2.py, line 245). -/
def admin_szenario_truthy (s : Session) : Bool :=
  match s.lookup "admin_selected_szenario" with
  | some (.vStr a) => a ≠ ""
  | _ => false

/-! ## Session-store lemmas -/
theorem Session.lookup_set_self (s : Session) (k : String) (v : Val) :
    (s.set k v).lookup k = some v := by
  simp [Session.set, Session.lookup]

theorem Session.lookup_erase_ne (s : Session) (k k' : String) (h : k' ≠ k) :
    (s.erase k).lookup k' = s.lookup k' := by
  induction s with
  | nil => rfl
  | cons p rest ih =>
    obtain ⟨pk, pv⟩ := p
    by_cases hp : pk = k
    · subst hp
      rw [Session.erase, List.filter_cons, if_neg (by simp), ← Session.erase, ih,
        Session.lookup, if_neg fun he => h he.symm]
    · rw [Session.erase, List.filter_cons, if_pos (by simpa using hp)]
      by_cases hk' : pk = k'
      · rw [Session.lookup, if_pos hk', Session.lookup, if_pos hk']
      · rw [Session.lookup, if_neg hk', ← Session.erase, ih, Session.lookup, if_neg hk']

theorem Session.lookup_erase_self (s : Session) (k : String) :
    (s.erase k).lookup k = none := by
  induction s with
  | nil => rfl
  | cons p rest ih =>
    obtain ⟨pk, pv⟩ := p
    by_cases hp : pk = k
    · subst hp
      rw [Session.erase, List.filter_cons, if_neg (by simp), ← Session.erase, ih]
    · rw [Session.erase, List.filter_cons, if_pos (by simpa using hp),
        Session.lookup, if_neg hp, ← Session.erase, ih]

theorem Session.lookup_set_ne (s : Session) (k : String) (v : Val) (k' : String)
    (h : k' ≠ k) : (s.set k v).lookup k' = s.lookup k' := by
  rw [Session.set, Session.lookup, if_neg (Ne.symm h)]
  exact Session.lookup_erase_ne s k k' h

/-- Two strings differ if they differ at some index below the length of the
left part of an append; lets us separate a round-indexed key such as
`befunde_runde_3` from the fixed keys. -/
theorem strApp_ne_of_idx (a x b : String) (i : Nat)
    (hi : i < a.data.length)
    (hne : a.data[i]? ≠ b.data[i]?) : (a ++ x) ≠ b := by
  intro h
  apply hne
  have hd : a.data ++ x.data = b.data := by
    have := congrArg String.data h
    rwa [String.data_append] at this
  calc a.data[i]? = (a.data ++ x.data)[i]? := by
        rw [List.getElem?_append, if_pos hi]
    _ = b.data[i]? := by rw [hd]

theorem Session.lookup_setIfAbsent_ne (s : Session) (k : String) (v : Val)
    (k' : String) (h : k' ≠ k) :
    (s.setIfAbsent k v).lookup k' = s.lookup k' := by
  unfold Session.setIfAbsent
  by_cases hc : s.containsKey k = true
  · rw [if_pos hc]
  · rw [if_neg hc, Session.lookup_set_ne _ _ _ _ h]

theorem str_ne_empty_of_data_ne_nil (a : String) (h : a.data ≠ []) : a ≠ "" := by
  intro he
  exact h (by rw [he])

theorem strAppend_ne_empty_left (a b : String) (h : a.data ≠ []) : a ++ b ≠ "" := by
  intro hab
  apply h
  have hd := congrArg String.data hab
  rw [String.data_append] at hd
  exact (List.append_eq_nil.mp hd).1

/-- Folding the per-round appends of the summary loop equals appending the
concatenation of the passages of the selected rounds. -/
theorem foldl_pair_append (g₁ g₂ : Nat → String) (p₁ p₂ : Nat → Prop)
    [DecidablePred p₁] [DecidablePred p₂] (l : List Nat) (acc : String × String) :
    l.foldl (fun (acc : String × String) i =>
        (if p₁ i then acc.1 ++ g₁ i else acc.1,
         if p₂ i then acc.2 ++ g₂ i else acc.2)) acc
      = (acc.1 ++ joinBlocks ((l.filter (fun i => p₁ i)).map g₁),
         acc.2 ++ joinBlocks ((l.filter (fun i => p₂ i)).map g₂)) := by
  induction l generalizing acc with
  | nil => simp [joinBlocks]
  | cons i tl ih =>
    rw [List.foldl_cons, ih]
    by_cases h₁ : p₁ i <;> by_cases h₂ : p₂ i <;>
      simp [h₁, h₂, joinBlocks, List.filter_cons, String.append_assoc]

/-- `List.find?` returns the first match: the list splits into a prefix
without matches, the found element, and a remainder. -/
theorem find?_eq_some_split {α : Type} (p : α → Bool) (l : List α) (r : α)
    (h : l.find? p = some r) :
    ∃ pre post, l = pre ++ r :: post ∧ ∀ x ∈ pre, p x = false := by
  induction l with
  | nil => simp [List.find?] at h
  | cons a tl ih =>
    rw [List.find?] at h
    by_cases ha : p a
    · rw [ha] at h
      simp only [Option.some.injEq] at h
      exact ⟨[], tl, by rw [h]; rfl, by simp⟩
    · rw [Bool.eq_false_iff.mpr ha] at h
      obtain ⟨pre, post, hsplit, hpre⟩ := ih h
      refine ⟨a :: pre, post, by rw [hsplit]; rfl, ?_⟩
      intro x hx
      rcases List.mem_cons.mp hx with hx | hx
      · subst hx; exact Bool.eq_false_iff.mpr ha
      · exact hpre x hx

/-! ## Claim theorems -/

/-- C9: the session token counters are monotone.  `add_usage` increases
each of the three sums by `int(argument or 0)` (with `None`/`0` treated as
0) and, for the non-negative token counts the API reports, never decreases
any of them; when the sums are absent they start from zero;
`init_token_counters` leaves already-existing sums unchanged; and
`get_token_sums` returns exactly the three stored sums without modifying
them, initializing them to 0 when `token_sums` is absent. -/
theorem token_counters_monoton (s : Session) (p c t : Option Int) (a b d : Int)
    (hp : 0 ≤ pyIntOr0 p) (hc : 0 ≤ pyIntOr0 c) (ht : 0 ≤ pyIntOr0 t) :
    (s.lookup "token_sums" = some (.vSums a b d) →
      (add_usage p c t s).lookup "token_sums"
          = some (.vSums (a + pyIntOr0 p) (b + pyIntOr0 c) (d + pyIntOr0 t))
        ∧ a ≤ a + pyIntOr0 p ∧ b ≤ b + pyIntOr0 c ∧ d ≤ d + pyIntOr0 t)
    ∧ (s.lookup "token_sums" = none →
      (add_usage p c t s).lookup "token_sums"
          = some (.vSums (pyIntOr0 p) (pyIntOr0 c) (pyIntOr0 t)))
    ∧ (s.containsKey "token_sums" = true → init_token_counters s = s)
    ∧ (s.lookup "token_sums" = some (.vSums a b d) →
      get_token_sums s = some (s, a, b, d))
    ∧ (s.lookup "token_sums" = none →
      get_token_sums s = some (s.set "token_sums" (.vSums 0 0 0), 0, 0, 0)) := by
  refine ⟨?_, ?_, ?_, ?_, ?_⟩
  · intro h
    have hck : s.containsKey "token_sums" = true := by
      simp [Session.containsKey, h]
    refine ⟨?_, le_add_of_nonneg_right hp, le_add_of_nonneg_right hc,
      le_add_of_nonneg_right ht⟩
    simp [add_usage, hck, h, Session.lookup_set_self]
  · intro h
    have hck : s.containsKey "token_sums" = false := by
      simp [Session.containsKey, h]
    simp [add_usage, hck, init_token_counters, Session.lookup_set_self,
      Session.lookup_set_ne]
  · intro hck
    simp [init_token_counters, hck]
  · intro h
    have hck : s.containsKey "token_sums" = true := by
      simp [Session.containsKey, h]
    simp [get_token_sums, hck, h]
  · intro h
    have hck : s.containsKey "token_sums" = false := by
      simp [Session.containsKey, h]
    simp [get_token_sums, hck, init_token_counters, Session.lookup_set_self]

/-- Witness for C9 at a concrete session and concrete token counts,
covering both the present-sums case and the absent-sums case of
`get_token_sums`. -/
theorem token_counters_monoton_witness :
    (add_usage (some 5) (some 7) none [("token_sums", Val.vSums 1 2 3)]).lookup
        "token_sums" = some (.vSums 6 9 3)
    ∧ get_token_sums []
        = some (Session.set [] "token_sums" (Val.vSums 0 0 0), 0, 0, 0) := by
  constructor
  · have h := (token_counters_monoton [("token_sums", Val.vSums 1 2 3)]
      (some 5) (some 7) none 1 2 3 (by decide) (by decide) (by decide)).1
      (by decide)
    rw [h.1]
    decide
  · exact (token_counters_monoton [] (some 5) (some 7) none 0 0 0
      (by decide) (by decide) (by decide)).2.2.2.2 (by decide)

/-- C10: `reset_fall_session_state` removes exactly the case-related keys
(members of `_FALL_SESSION_KEYS` or starting with `diagnostik_runde_` /
`befunde_runde_`) that are not named in `keep_keys`; every other key keeps
its previous value, and keys in `keep_keys` are never removed. -/
theorem reset_fall_session_state_frame (keep_keys : List String) (s : Session)
    (k : String) :
    ((reset_fall_session_state keep_keys s).lookup k
      = if (is_fall_session_key k && !keep_keys.contains k) = true then none
        else s.lookup k)
    ∧ (keep_keys.contains k = true →
      (reset_fall_session_state keep_keys s).lookup k = s.lookup k)
    ∧ (is_fall_session_key k = false →
      (reset_fall_session_state keep_keys s).lookup k = s.lookup k) := by
  have hmain : (reset_fall_session_state keep_keys s).lookup k
      = if (is_fall_session_key k && !keep_keys.contains k) = true then none
        else s.lookup k := by
    induction s with
    | nil =>
      by_cases hx : (is_fall_session_key k && !keep_keys.contains k) = true <;>
        simp [reset_fall_session_state, Session.lookup, hx]
    | cons p rest ih =>
      obtain ⟨pk, pv⟩ := p
      have hpred : (keep_keys.contains pk || !is_fall_session_key pk)
          = !(is_fall_session_key pk && !keep_keys.contains pk) := by
        cases hf : is_fall_session_key pk <;> cases hk : keep_keys.contains pk <;> simp
      by_cases hpk : pk = k
      · subst hpk
        by_cases hx : (is_fall_session_key pk && !keep_keys.contains pk) = true
        · rw [reset_fall_session_state, List.filter_cons,
            if_neg (by rw [hpred, hx]; simp), ← reset_fall_session_state, ih, hx]
          simp
        · have hx' : (is_fall_session_key pk && !keep_keys.contains pk) = false := by
            simpa using hx
          rw [reset_fall_session_state, List.filter_cons,
            if_pos (by rw [hpred, hx']; rfl), Session.lookup, if_pos rfl,
            if_neg hx, Session.lookup, if_pos rfl]
      · by_cases hq : (keep_keys.contains pk || !is_fall_session_key pk) = true
        · rw [reset_fall_session_state, List.filter_cons, if_pos hq,
            Session.lookup, if_neg hpk, ← reset_fall_session_state, ih,
            Session.lookup, if_neg hpk]
        · rw [reset_fall_session_state, List.filter_cons, if_neg hq,
            ← reset_fall_session_state, ih, Session.lookup, if_neg hpk]
  refine ⟨hmain, ?_, ?_⟩
  · intro hk
    rw [hmain, if_neg (by rw [hk]; simp)]
  · intro hk
    rw [hmain, if_neg (by rw [hk]; simp)]

/-- Witness for C10: a kept non-case key, a removed case key, and a
case key protected by `keep_keys`, in one concrete session. -/
theorem reset_fall_session_state_frame_witness :
    (reset_fall_session_state ["befunde"]
        [("offline_mode", Val.vBool true), ("befunde", Val.vStr "B"),
         ("diagnostik_runde_2", Val.vStr "D")]).lookup "diagnostik_runde_2"
      = none
    ∧ (reset_fall_session_state ["befunde"]
        [("offline_mode", Val.vBool true), ("befunde", Val.vStr "B"),
         ("diagnostik_runde_2", Val.vStr "D")]).lookup "befunde"
      = some (Val.vStr "B") := by
  constructor
  · have h := (reset_fall_session_state_frame ["befunde"]
      [("offline_mode", Val.vBool true), ("befunde", Val.vStr "B"),
       ("diagnostik_runde_2", Val.vStr "D")] "diagnostik_runde_2").1
    rw [h, if_pos (by decide)]
  · have h := (reset_fall_session_state_frame ["befunde"]
      [("offline_mode", Val.vBool true), ("befunde", Val.vStr "B"),
       ("diagnostik_runde_2", Val.vStr "D")] "befunde").2.1 (by decide)
    rw [h]
    decide

/-- C6: the wizard stages compose linearly on the main page: the physical
exam findings can only be generated once at least one user chat message
exists, the final feedback can only be generated while both the final
diagnosis and the therapy plan are non-blank, and the protocol download is
only offered once `final_feedback` exists in the session. -/
theorem main_page_gates_linear (ub fb : Bool) (s : Session) :
    ((main_page_gates ub fb s).koerperbefund_generierung = true →
      1 ≤ anzahl_fragen s)
    ∧ ((main_page_gates ub fb s).feedback_generierung = true →
      pyStrip (s.getStr "final_diagnose") ≠ ""
        ∧ pyStrip (s.getStr "therapie_vorschlag") ≠ "")
    ∧ ((main_page_gates ub fb s).download_angeboten = true →
      s.containsKey "final_feedback" = true) := by
  refine ⟨?_, ?_, ?_⟩
  · intro h
    simp only [main_page_gates, Bool.and_eq_true, decide_eq_true_eq] at h
    exact h.1
  · intro h
    simp only [main_page_gates, Bool.and_eq_true, decide_eq_true_eq] at h
    exact ⟨h.1.1.1, h.1.1.2⟩
  · intro h
    simpa [main_page_gates] using h

/-- Witness for C6 at a concrete session with one user message, entered
diagnosis and therapy, and stored feedback. -/
theorem main_page_gates_linear_witness :
    1 ≤ anzahl_fragen [("messages", Val.vMsgs [("user", "Seit wann?")])]
    ∧ Session.containsKey [("final_feedback", Val.vStr "Gut")]
        "final_feedback" = true := by
  constructor
  · exact (main_page_gates_linear true true
      [("messages", Val.vMsgs [("user", "Seit wann?")])]).1 (by decide)
  · exact (main_page_gates_linear true true
      [("final_feedback", Val.vStr "Gut")]).2.2 (by decide)

/-- C2: every completed submission of an additional diagnostics round `r`
(non-blank input, in the diagnostics routine as well as on the pages using
the main-page handler) stores the generated findings under
`befunde_runde_r`, sets `diagnostik_runden_gesamt` to `r`, and resets
`diagnostik_aktiv`; on the pages `r` is the successor of the previous round
count. -/
theorem diagnostik_runden_invariante (sprachCheck : String → String)
    (runde : Nat) (eingabe befund : String) (s : Session)
    (h : pyStrip eingabe ≠ "") :
    ((submit_diagnostik_routine sprachCheck runde eingabe befund s).lookup
        ("befunde_runde_" ++ toString runde) = some (.vStr befund)
      ∧ (submit_diagnostik_routine sprachCheck runde eingabe befund s).lookup
          "diagnostik_runden_gesamt" = some (.vNat runde)
      ∧ (submit_diagnostik_routine sprachCheck runde eingabe befund s).lookup
          "diagnostik_aktiv" = some (.vBool false))
    ∧ ((submit_diagnostik_hauptseite eingabe befund s).lookup
        ("befunde_runde_" ++ toString (s.getNat "diagnostik_runden_gesamt" 1 + 1))
          = some (.vStr befund)
      ∧ (submit_diagnostik_hauptseite eingabe befund s).lookup
          "diagnostik_runden_gesamt"
          = some (.vNat (s.getNat "diagnostik_runden_gesamt" 1 + 1))
      ∧ (submit_diagnostik_hauptseite eingabe befund s).lookup
          "diagnostik_aktiv" = some (.vBool false)) := by
  have hba : ∀ r : Nat, ("befunde_runde_" ++ toString r) ≠ "diagnostik_aktiv" :=
    fun r => strApp_ne_of_idx _ _ _ 0 (by decide) (by decide)
  have hbg : ∀ r : Nat, ("befunde_runde_" ++ toString r) ≠ "diagnostik_runden_gesamt" :=
    fun r => strApp_ne_of_idx _ _ _ 0 (by decide) (by decide)
  have hga : ("diagnostik_runden_gesamt" : String) ≠ "diagnostik_aktiv" := by decide
  unfold submit_diagnostik_routine submit_diagnostik_hauptseite
  rw [if_pos h, if_pos h]
  refine ⟨⟨?_, ?_, ?_⟩, ?_, ?_, ?_⟩ <;>
    simp [Session.lookup_set_self, Session.lookup_set_ne, hba, hbg, hga]

/-- Witness for C2: a concrete non-blank submission of round 2. -/
theorem diagnostik_runden_invariante_witness :
    (submit_diagnostik_routine id 2 " CT Thorax " "Unauffällig" []).lookup
        "diagnostik_aktiv" = some (.vBool false)
    ∧ (submit_diagnostik_hauptseite " CT Thorax " "Unauffällig"
        [("diagnostik_runden_gesamt", Val.vNat 2)]).lookup
        "diagnostik_runden_gesamt" = some (.vNat 3) := by
  constructor
  · exact (diagnostik_runden_invariante id 2 " CT Thorax " "Unauffällig" []
      (by decide)).1.2.2
  · exact (diagnostik_runden_invariante id 2 " CT Thorax " "Unauffällig"
      [("diagnostik_runden_gesamt", Val.vNat 2)] (by decide)).2.2.1

/-- C4: `determine_feedback_mode` applies the precedence: a valid session
override wins; otherwise an active and valid persisted fixation wins, and
an active but invalid persisted value is cleared; otherwise a valid
already-stored session mode is kept; otherwise one of the two modes is
chosen at random.  On every path the returned mode is one of the two modes
and is stored under the session key `feedback_mode`. -/
theorem determine_feedback_mode_praezedenz (pa : Bool) (pm : String)
    (rp : Bool) (s : Session) :
    (∀ ov, s.lookup "feedback_mode_override" = some (.vStr ov) →
      availableModes.contains ov = true →
        (determine_feedback_mode pa pm rp s).mode = ov
          ∧ (determine_feedback_mode pa pm rp s).clearedFix = false)
    ∧ (is_valid_mode (s.lookup "feedback_mode_override") = false →
      pa = true → availableModes.contains pm = true →
        (determine_feedback_mode pa pm rp s).mode = pm
          ∧ (determine_feedback_mode pa pm rp s).clearedFix = false)
    ∧ (is_valid_mode (s.lookup "feedback_mode_override") = false →
      pa = true → availableModes.contains pm = false →
        (determine_feedback_mode pa pm rp s).clearedFix = true)
    ∧ (∀ cur, is_valid_mode (s.lookup "feedback_mode_override") = false →
      (pa && availableModes.contains pm) = false →
      s.lookup "feedback_mode" = some (.vStr cur) →
      availableModes.contains cur = true →
        (determine_feedback_mode pa pm rp s).mode = cur)
    ∧ (is_valid_mode (s.lookup "feedback_mode_override") = false →
      (pa && availableModes.contains pm) = false →
      is_valid_mode (s.lookup "feedback_mode") = false →
        (determine_feedback_mode pa pm rp s).mode
          = (if rp then FEEDBACK_MODE_CHATGPT else FEEDBACK_MODE_AMBOSS_CHATGPT))
    ∧ availableModes.contains (determine_feedback_mode pa pm rp s).mode = true
    ∧ (determine_feedback_mode pa pm rp s).session.lookup "feedback_mode"
        = some (.vStr (determine_feedback_mode pa pm rp s).mode) := by
  have hmain : availableModes.contains (determine_feedback_mode pa pm rp s).mode = true
      ∧ (determine_feedback_mode pa pm rp s).session.lookup "feedback_mode"
          = some (.vStr (determine_feedback_mode pa pm rp s).mode) := by
    simp only [determine_feedback_mode]
    by_cases hov : is_valid_mode (s.lookup "feedback_mode_override") = true
    · rcases hl : s.lookup "feedback_mode_override" with _ | v
      · rw [hl] at hov
        simp [is_valid_mode] at hov
      · cases v <;> rw [hl] at hov <;>
          simp only [is_valid_mode, Bool.false_eq_true] at hov
        rename_i ov
        have hov2 : ov ∈ availableModes := by simpa using hov
        have hov3 : is_valid_mode (some (Val.vStr ov)) = true := by
          simpa [is_valid_mode] using hov
        simp [hl, hov3, hov, hov2, Session.lookup_set_self]
    · have hov2 : is_valid_mode (s.lookup "feedback_mode_override") = false := by
        simpa using hov
      by_cases hp : (pa && is_valid_mode (some (Val.vStr pm))) = true
      · have hpm : availableModes.contains pm = true := by
          have := (Bool.and_eq_true _ _).mp hp
          simpa [is_valid_mode] using this.2
        have hpm2 : pm ∈ availableModes := by simpa using hpm
        simp [hov2, hp, hpm, hpm2, Session.lookup_set_self]
      · have hp2 : (pa && is_valid_mode (some (Val.vStr pm))) = false := by
          simpa using hp
        by_cases hcv : is_valid_mode (s.lookup "feedback_mode") = true
        · rcases hc : s.lookup "feedback_mode" with _ | w
          · rw [hc] at hcv
            simp [is_valid_mode] at hcv
          · cases w <;> rw [hc] at hcv <;>
              simp only [is_valid_mode, Bool.false_eq_true] at hcv
            rename_i cur
            have hcv2 : cur ∈ availableModes := by simpa using hcv
            have hcv3 : is_valid_mode (some (Val.vStr cur)) = true := by
              simpa [is_valid_mode] using hcv
            simp [hov2, hp2, hc, hcv3, hcv, hcv2, Session.lookup_set_self]
        · have hcv2 : is_valid_mode (s.lookup "feedback_mode") = false := by
            simpa using hcv
          cases rp <;>
            simp [hov2, hp2, hcv2, Session.lookup_set_self, availableModes,
              FEEDBACK_MODE_CHATGPT, FEEDBACK_MODE_AMBOSS_CHATGPT]
  refine ⟨?_, ?_, ?_, ?_, ?_, hmain.1, hmain.2⟩
  · intro ov hov hvalid
    have hvm : is_valid_mode (some (.vStr ov)) = true := by
      simpa [is_valid_mode] using hvalid
    simp [determine_feedback_mode, hov, hvm]
  · intro hno hpa hpm
    have hvm : is_valid_mode (some (.vStr pm)) = true := by
      simpa [is_valid_mode] using hpm
    simp [determine_feedback_mode, hno, hpa, hvm]
  · intro hno hpa hpm
    have hvm : is_valid_mode (some (.vStr pm)) = false := by
      simpa [is_valid_mode] using hpm
    simp only [determine_feedback_mode, hno, Bool.false_eq_true, if_false, hvm,
      Bool.and_false, hpa, Bool.not_false, Bool.and_true]
    split
    · split <;> rfl
    · rfl
  · intro cur hno hpp hcur hvcur
    have hpp' : (pa && is_valid_mode (some (.vStr pm))) = false := by
      simpa [is_valid_mode] using hpp
    have hvm : is_valid_mode (some (.vStr cur)) = true := by
      simpa [is_valid_mode] using hvcur
    simp [determine_feedback_mode, hno, hpp', hcur, hvm]
  · intro hno hpp hcv
    have hpp' : (pa && is_valid_mode (some (.vStr pm))) = false := by
      simpa [is_valid_mode] using hpp
    simp [determine_feedback_mode, hno, hpp', hcv]

/-- Witness for C4: a valid override wins at a concrete session, and with
no override, no fixation and no stored mode a concrete random pick is
stored. -/
theorem determine_feedback_mode_praezedenz_witness :
    (determine_feedback_mode false "" true
        [("feedback_mode_override", Val.vStr "Amboss_ChatGPT")]).mode
      = "Amboss_ChatGPT"
    ∧ (determine_feedback_mode false "" true []).mode = "ChatGPT" := by
  constructor
  · exact ((determine_feedback_mode_praezedenz false "" true
      [("feedback_mode_override", Val.vStr "Amboss_ChatGPT")]).1
        "Amboss_ChatGPT" (by decide) (by decide)).1
  · have h := (determine_feedback_mode_praezedenz false "" true []).2.2.2.2.1
      (by decide) (by decide) (by decide)
    simpa using h

/-- C1: with the default `start_runde = 2`,
`aktualisiere_diagnostik_zusammenfassung` stores under
`diagnostik_eingaben_kumuliert` the stripped concatenation of a
`### Termin 1` block containing `user_diagnostics` — present exactly when
`user_diagnostics` or `befunde` is non-empty — followed by one
`### Termin i` block for each `i` from 2 to `n` (the stored
`diagnostik_runden_gesamt`, defaulting to 1 when absent) whose
`diagnostik_runde_i` is non-empty, in increasing order of `i`; and
symmetrically for `gpt_befunde_kumuliert` from `befunde` and the
`befunde_runde_i`.  Round keys above `n` do not occur in the result. -/
theorem aktualisiere_diagnostik_zusammenfassung_korrekt (s : Session) :
    ((aktualisiere_diagnostik_zusammenfassung 2 s).lookup
        "diagnostik_eingaben_kumuliert"
      = some (.vStr (kumulierte_bloecke (s.getStr "user_diagnostics")
          (s.getStr "user_diagnostics" ≠ "" || s.getStr "befunde" ≠ "")
          (fun i => s.getStr ("diagnostik_runde_" ++ toString i))
          (s.getNat "diagnostik_runden_gesamt" 1))))
    ∧ ((aktualisiere_diagnostik_zusammenfassung 2 s).lookup
        "gpt_befunde_kumuliert"
      = some (.vStr (kumulierte_bloecke (s.getStr "befunde")
          (s.getStr "user_diagnostics" ≠ "" || s.getStr "befunde" ≠ "")
          (fun i => s.getStr ("befunde_runde_" ++ toString i))
          (s.getNat "diagnostik_runden_gesamt" 1)))) := by
  have hkey : ("diagnostik_eingaben_kumuliert" : String) ≠ "gpt_befunde_kumuliert" := by
    decide
  unfold aktualisiere_diagnostik_zusammenfassung
  constructor
  · rw [Session.lookup_set_ne _ _ _ _ hkey, Session.lookup_set_self]
    unfold kumulierte_bloecke
    rw [foldl_pair_append]
    cases hc : (decide (s.getStr "user_diagnostics" ≠ "")
        || decide (s.getStr "befunde" ≠ "")) <;>
      simp [hc]
  · rw [Session.lookup_set_self]
    unfold kumulierte_bloecke
    rw [foldl_pair_append]
    cases hc : (decide (s.getStr "user_diagnostics" ≠ "")
        || decide (s.getStr "befunde" ≠ "")) <;>
      simp [hc]

/-- The raw-payload fallback of `_build_amboss_context` is never empty. -/
theorem amboss_fallback_ne_empty (j : Val → String) (s : Session) :
    amboss_fallback j s ≠ "" := by
  unfold amboss_fallback
  rcases hx : s.lookup "amboss_result" with _ | raw
  · show ("Hinweis: Für dieses Feedback liegt aktuell keine AMBOSS-Zusammenfassung vor. Bitte prüfen Sie den Vorlauf bei Bedarf." : String) ≠ ""
    decide
  · show (if raw.truthy = true then
        "Hinweis: Keine AMBOSS-Zusammenfassung verfügbar. Kurz-Auszug aus dem Payload zur Orientierung: "
          ++ (⟨(j raw).data.take 400⟩ : String)
      else
        "Hinweis: Für dieses Feedback liegt aktuell keine AMBOSS-Zusammenfassung vor. Bitte prüfen Sie den Vorlauf bei Bedarf.") ≠ ""
    by_cases ht : raw.truthy = true
    · rw [if_pos ht]
      exact strAppend_ne_empty_left _ _ (by decide)
    · rw [if_neg ht]
      decide

/-- Every branch of `_build_amboss_context` returns non-empty text, so the
`if amboss_context:` append in `feedback_erzeugen` fires whenever the
combined mode is active. -/
theorem build_amboss_context_ne_empty (j : Val → String) (s : Session) :
    build_amboss_context j s ≠ "" := by
  unfold build_amboss_context
  rcases hx : s.lookup "amboss_payload_summary" with _ | v
  · exact amboss_fallback_ne_empty j s
  · cases v with
    | vStr summary =>
      show (if 80 ≤ (pyStrip summary).data.length then pyStrip summary
        else if pyStrip summary ≠ "" then
          "Hinweis: Die AMBOSS-Zusammenfassung ist unerwartet kurz. Inhalt: " ++ pyStrip summary
        else amboss_fallback j s) ≠ ""
      by_cases hlen : 80 ≤ (pyStrip summary).data.length
      · rw [if_pos hlen]
        apply str_ne_empty_of_data_ne_nil
        intro hnil
        rw [hnil] at hlen
        simp at hlen
      · rw [if_neg hlen]
        by_cases hne : pyStrip summary ≠ ""
        · rw [if_pos hne]
          exact strAppend_ne_empty_left _ _ (by decide)
        · rw [if_neg hne]
          exact amboss_fallback_ne_empty j s
    | vNat n => exact amboss_fallback_ne_empty j s
    | vInt n => exact amboss_fallback_ne_empty j s
    | vBool b => exact amboss_fallback_ne_empty j s
    | vNone => exact amboss_fallback_ne_empty j s
    | vSums a b c => exact amboss_fallback_ne_empty j s
    | vMsgs l => exact amboss_fallback_ne_empty j s

/-- C3: in `feedback_erzeugen` (online mode) the AMBOSS context is appended
to the feedback prompt if and only if the mode determined by
`determine_feedback_mode` is `Amboss_ChatGPT`; in mode `ChatGPT` the prompt
is exactly the base prompt, with no AMBOSS block. -/
theorem feedback_amboss_nur_im_kombimodus (j : Val → String) (pa : Bool)
    (pm : String) (rp : Bool)
    (phraseDat phraseGen final_diagnose therapie_vorschlag user_ddx2
      diagnostik_eingaben gpt_befunde koerper_befund user_verlauf : String)
    (anzahl_termine : Nat) (diagnose_szenario : String) (s : Session) :
    ((determine_feedback_mode pa pm rp s).mode = FEEDBACK_MODE_AMBOSS_CHATGPT →
      (feedback_erzeugen_prompt j pa pm rp phraseDat phraseGen final_diagnose
          therapie_vorschlag user_ddx2 diagnostik_eingaben gpt_befunde
          koerper_befund user_verlauf anzahl_termine diagnose_szenario s).1
        = feedback_basis_prompt phraseDat phraseGen final_diagnose
            therapie_vorschlag user_ddx2 diagnostik_eingaben gpt_befunde
            koerper_befund user_verlauf anzahl_termine diagnose_szenario
          ++ amboss_block (build_amboss_context j
              (determine_feedback_mode pa pm rp s).session))
    ∧ ((determine_feedback_mode pa pm rp s).mode = FEEDBACK_MODE_CHATGPT →
      (feedback_erzeugen_prompt j pa pm rp phraseDat phraseGen final_diagnose
          therapie_vorschlag user_ddx2 diagnostik_eingaben gpt_befunde
          koerper_befund user_verlauf anzahl_termine diagnose_szenario s).1
        = feedback_basis_prompt phraseDat phraseGen final_diagnose
            therapie_vorschlag user_ddx2 diagnostik_eingaben gpt_befunde
            koerper_befund user_verlauf anzahl_termine diagnose_szenario) := by
  constructor
  · intro hm
    have hb := build_amboss_context_ne_empty j
      (determine_feedback_mode pa pm rp s).session
    simp [feedback_erzeugen_prompt, hm, hb]
  · intro hm
    have hne : FEEDBACK_MODE_CHATGPT ≠ FEEDBACK_MODE_AMBOSS_CHATGPT := by decide
    simp [feedback_erzeugen_prompt, hm, hne]

/-- Witness for C3 with a concrete override fixing each of the two modes. -/
theorem feedback_amboss_nur_im_kombimodus_witness :
    (feedback_erzeugen_prompt (fun _ => "") false "" true "P" "G" "D" "T" "X"
        "E" "B" "K" "V" 1 "S"
        [("feedback_mode_override", Val.vStr "Amboss_ChatGPT")]).1
      = feedback_basis_prompt "P" "G" "D" "T" "X" "E" "B" "K" "V" 1 "S"
        ++ amboss_block (build_amboss_context (fun _ => "")
            (determine_feedback_mode false "" true
              [("feedback_mode_override", Val.vStr "Amboss_ChatGPT")]).session)
    ∧ (feedback_erzeugen_prompt (fun _ => "") false "" true "P" "G" "D" "T" "X"
        "E" "B" "K" "V" 1 "S"
        [("feedback_mode_override", Val.vStr "ChatGPT")]).1
      = feedback_basis_prompt "P" "G" "D" "T" "X" "E" "B" "K" "V" 1 "S" := by
  constructor
  · exact (feedback_amboss_nur_im_kombimodus (fun _ => "") false "" true
      "P" "G" "D" "T" "X" "E" "B" "K" "V" 1 "S"
      [("feedback_mode_override", Val.vStr "Amboss_ChatGPT")]).1 (by decide)
  · exact (feedback_amboss_nur_im_kombimodus (fun _ => "") false "" true
      "P" "G" "D" "T" "X" "E" "B" "K" "V" 1 "S"
      [("feedback_mode_override", Val.vStr "ChatGPT")]).2 (by decide)

/-- C5: case preparation applies override and fixation with this
precedence: a truthy admin-selected scenario always wins and the admin key
is popped; otherwise an active fixation whose scenario still occurs in the
loaded table is used; a fixation naming a scenario no longer in the table
is cleared and a random case is selected; otherwise a random case is
selected only when no `diagnose_szenario` is in the session, so a loaded
case is never replaced by a random one. -/
theorem fuehre_fall_vorbereitung_praezedenz (fixed : Bool)
    (fixed_szenario : String) (df : List FallRow) (s : Session)
    (h0 : s.getBool "fall_vorbereitung_abgeschlossen" = false)
    (hdf : df.isEmpty = false) :
    (∀ a, s.lookup "admin_selected_szenario" = some (.vStr a) → a ≠ "" →
      (fuehre_fall_vorbereitung_durch fixed fixed_szenario df s).auswahl
          = some (some a)
        ∧ (fuehre_fall_vorbereitung_durch fixed fixed_szenario df
            s).fixierung_geloescht = false)
    ∧ (admin_szenario_truthy s = false →
      (fixed && fixed_szenario ≠ "") = true →
      (verfuegbare_szenarien df).contains fixed_szenario = true →
        (fuehre_fall_vorbereitung_durch fixed fixed_szenario df s).auswahl
            = some (some fixed_szenario)
          ∧ (fuehre_fall_vorbereitung_durch fixed fixed_szenario df
              s).fixierung_geloescht = false)
    ∧ (admin_szenario_truthy s = false →
      (fixed && fixed_szenario ≠ "") = true →
      (verfuegbare_szenarien df).contains fixed_szenario = false →
        (fuehre_fall_vorbereitung_durch fixed fixed_szenario df s).auswahl
            = some none
          ∧ (fuehre_fall_vorbereitung_durch fixed fixed_szenario df
              s).fixierung_geloescht = true)
    ∧ (admin_szenario_truthy s = false →
      (fixed && fixed_szenario ≠ "") = false →
      s.containsKey "diagnose_szenario" = true →
        (fuehre_fall_vorbereitung_durch fixed fixed_szenario df s).auswahl
          = none)
    ∧ (admin_szenario_truthy s = false →
      (fixed && fixed_szenario ≠ "") = false →
      s.containsKey "diagnose_szenario" = false →
        (fuehre_fall_vorbereitung_durch fixed fixed_szenario df s).auswahl
          = some none)
    ∧ (fuehre_fall_vorbereitung_durch fixed fixed_szenario df
        s).session.lookup "admin_selected_szenario" = none := by
  have hckT : s.containsKey "diagnose_szenario" = true →
      Session.containsKey (s.erase "admin_selected_szenario")
        "diagnose_szenario" = true := by
    intro h
    rwa [Session.containsKey, Session.lookup_erase_ne _ _ _ (by decide)]
  have hckF : s.containsKey "diagnose_szenario" = false →
      Session.containsKey (s.erase "admin_selected_szenario")
        "diagnose_szenario" = false := by
    intro h
    rwa [Session.containsKey, Session.lookup_erase_ne _ _ _ (by decide)]
  have hweiter : admin_szenario_truthy s = false →
      fuehre_fall_vorbereitung_durch fixed fixed_szenario df s
        = (if (fixed && fixed_szenario ≠ "") = true then
            if (verfuegbare_szenarien df).contains fixed_szenario then
              ⟨s.erase "admin_selected_szenario", some (some fixed_szenario),
                false, false⟩
            else ⟨s.erase "admin_selected_szenario", some none, true, false⟩
          else if Session.containsKey (s.erase "admin_selected_szenario")
              "diagnose_szenario" then
            ⟨s.erase "admin_selected_szenario", none, false, false⟩
          else ⟨s.erase "admin_selected_szenario", some none, false, false⟩) := by
    intro hadm
    unfold admin_szenario_truthy at hadm
    unfold fuehre_fall_vorbereitung_durch
    rw [h0] at *
    simp only [Bool.false_eq_true, if_false, hdf]
    rcases hl : s.lookup "admin_selected_szenario" with _ | v
    · rfl
    · rw [hl] at hadm
      cases v <;> try rfl
      case vStr a =>
        have ha : a = "" := by simpa using hadm
        subst ha
        simp
  refine ⟨?_, ?_, ?_, ?_, ?_, ?_⟩
  · intro a ha hne
    simp [fuehre_fall_vorbereitung_durch, h0, hdf, ha, hne]
  · intro hadm hfix hmem
    have hmem2 : fixed_szenario ∈ verfuegbare_szenarien df := by simpa using hmem
    rw [hweiter hadm, if_pos hfix, if_pos (by simpa using hmem2)]
    exact ⟨rfl, rfl⟩
  · intro hadm hfix hmem
    have hmem2 : fixed_szenario ∉ verfuegbare_szenarien df := by simpa using hmem
    rw [hweiter hadm, if_pos hfix, if_neg (by simpa using hmem2)]
    exact ⟨rfl, rfl⟩
  · intro hadm hfix hds
    rw [hweiter hadm, if_neg (by rw [hfix]; simp),
      if_pos (by simpa using hckT hds)]
  · intro hadm hfix hds
    rw [hweiter hadm, if_neg (by rw [hfix]; simp),
      if_neg (by rw [hckF hds]; simp)]
  · have hsess : (fuehre_fall_vorbereitung_durch fixed fixed_szenario df
        s).session = s.erase "admin_selected_szenario" := by
      unfold fuehre_fall_vorbereitung_durch
      rw [h0]
      simp only [Bool.false_eq_true, if_false, hdf]
      split
      · split
        · rfl
        · split <;> split <;> rfl
      · split <;> split <;> rfl
    rw [hsess, Session.lookup_erase_self]

/-- Witness for C5: a concrete admin override wins, and with a fixation on
a scenario present in a concrete one-row table the fixed scenario is
selected. -/
theorem fuehre_fall_vorbereitung_praezedenz_witness :
    (fuehre_fall_vorbereitung_durch false ""
        [⟨1, "Angina tonsillaris", "B", "K", none, "w"⟩]
        [("admin_selected_szenario", Val.vStr "Angina tonsillaris")]).auswahl
      = some (some "Angina tonsillaris")
    ∧ (fuehre_fall_vorbereitung_durch true "Angina tonsillaris"
        [⟨1, "Angina tonsillaris", "B", "K", none, "w"⟩] []).auswahl
      = some (some "Angina tonsillaris") := by
  constructor
  · exact ((fuehre_fall_vorbereitung_praezedenz false ""
      [⟨1, "Angina tonsillaris", "B", "K", none, "w"⟩]
      [("admin_selected_szenario", Val.vStr "Angina tonsillaris")]
      (by decide) (by decide)).1 "Angina tonsillaris" (by decide) (by decide)).1
  · exact ((fuehre_fall_vorbereitung_praezedenz true "Angina tonsillaris"
      [⟨1, "Angina tonsillaris", "B", "K", none, "w"⟩] []
      (by decide) (by decide)).2.1 (by decide) (by decide) (by decide)).1

/-- C7: given a scenario name, `_waehle_fall` returns the first row whose
`Szenario` column equals that name, and raises `ValueError` exactly when no
row matches; given no scenario name and a non-empty table it returns a row
of the table.  `fallauswahl_prompt` catches the error, records an error
status, and leaves every other session key — in particular
`diagnose_szenario` — unchanged. -/
theorem waehle_fall_charakterisierung (df : List FallRow) (sz : String)
    (i : Nat) (coin : Bool) (s : Session) (hsz : sz ≠ "") :
    (∀ r, df.find? (fun row => row.szenario == sz) = some r →
      waehle_fall df (some sz) i = .ok r ∧ r.szenario = sz
        ∧ ∃ pre post, df = pre ++ r :: post ∧ ∀ x ∈ pre, x.szenario ≠ sz)
    ∧ ((∃ e, waehle_fall df (some sz) i = .error e) ↔ ∀ r ∈ df, r.szenario ≠ sz)
    ∧ (df ≠ [] → ∃ r, waehle_fall df none i = .ok r ∧ r ∈ df)
    ∧ (∀ e, df.isEmpty = false → waehle_fall df (some sz) i = .error e →
      ∀ k, k ≠ "amboss_persist_info" →
        (fallauswahl_prompt df (some sz) i coin s).lookup k = s.lookup k) := by
  refine ⟨?_, ?_, ?_, ?_⟩
  · intro r hr
    have hmatch : r.szenario = sz := by
      have := List.find?_some hr
      simpa using this
    refine ⟨?_, hmatch, ?_⟩
    · simp [waehle_fall, hsz, hr]
    · obtain ⟨pre, post, hsplit, hpre⟩ := find?_eq_some_split _ _ _ hr
      exact ⟨pre, post, hsplit, fun x hx => by simpa using hpre x hx⟩
  · constructor
    · rintro ⟨e, he⟩ r hr
      rcases hf : df.find? (fun row => row.szenario == sz) with _ | r'
      · have := List.find?_eq_none.mp hf r hr
        simpa using this
      · rw [waehle_fall, if_pos hsz, hf] at he
        simp at he
    · intro hall
      have hf : df.find? (fun row => row.szenario == sz) = none := by
        rw [List.find?_eq_none]
        intro x hx
        simpa using hall x hx
      exact ⟨"Szenario " ++ sz ++ " nicht in der Tabelle gefunden.",
        by simp [waehle_fall, hsz, hf]⟩
  · intro hne
    have hlen : 0 < df.length := List.length_pos.mpr hne
    have hlt : i % df.length < df.length := Nat.mod_lt _ hlen
    refine ⟨df[i % df.length], ?_, List.getElem_mem hlt⟩
    simp [waehle_fall, waehle_fall_sample, List.getElem?_eq_getElem hlt]
  · intro e hdf he k hk
    rw [fallauswahl_prompt, if_neg (by simp [hdf]), he,
      Session.lookup_set_ne _ _ _ _ hk]

/-- Witness for C7: on a concrete one-row table, a missing scenario name
yields the error and leaves `diagnose_szenario` untouched. -/
theorem waehle_fall_charakterisierung_witness :
    (∃ e, waehle_fall [⟨1, "Angina tonsillaris", "B", "K", none, "w"⟩]
        (some "Lungenembolie") 0 = .error e)
    ∧ (fallauswahl_prompt [⟨1, "Angina tonsillaris", "B", "K", none, "w"⟩]
        (some "Lungenembolie") 0 true
        [("diagnose_szenario", Val.vStr "Altfall")]).lookup "diagnose_szenario"
      = some (Val.vStr "Altfall") := by
  have h := waehle_fall_charakterisierung
    [⟨1, "Angina tonsillaris", "B", "K", none, "w"⟩] "Lungenembolie" 0 true
    [("diagnose_szenario", Val.vStr "Altfall")] (by decide)
  obtain ⟨e, he⟩ := h.2.1.mpr (by decide)
  refine ⟨⟨e, he⟩, ?_⟩
  rw [h.2.2.2 e (by decide) he "diagnose_szenario" (by decide)]
  decide


/-- The `SYSTEM_PROMPT` written by `prepare_fall_session_state` decomposes
around the loaded diagnosis and description of the session it runs on. -/
theorem prepare_system_prompt_decomp (p : PersonParams) (t : Session)
    (hck : Session.containsKey t "diagnose_szenario" = true) :
    ∃ a b c, (prepare_fall_session_state p t).lookup "SYSTEM_PROMPT"
      = some (.vStr (a ++ t.getStr "diagnose_szenario" ++ b
          ++ t.getStr "diagnose_features" ++ c)) := by
  have heq : prepare_fall_session_state p t
      = ((((((t.setIfAbsent "patient_name" (Val.vStr p.patient_name)).setIfAbsent
      "patient_age" (Val.vNat p.patient_age)).setIfAbsent "patient_job"
      (Val.vStr p.patient_job)).set "patient_verhalten_memo"
      (Val.vStr p.verhalten_memo)).set "patient_verhalten"
      (Val.vStr p.verhalten_text)).set "patient_hauptanweisung"
      (Val.vStr hauptanweisung)).set "SYSTEM_PROMPT" (Val.vStr ("\nPatientensimulation – "
          ++ ((((((t.setIfAbsent "patient_name" (Val.vStr p.patient_name)).setIfAbsent
      "patient_age" (Val.vNat p.patient_age)).setIfAbsent "patient_job"
      (Val.vStr p.patient_job)).set "patient_verhalten_memo"
      (Val.vStr p.verhalten_memo)).set "patient_verhalten"
      (Val.vStr p.verhalten_text)).set "patient_hauptanweisung"
      (Val.vStr hauptanweisung)).getStr "diagnose_szenario" ++ "\n\n"
          ++ ("Du bist " ++ ((((((t.setIfAbsent "patient_name" (Val.vStr p.patient_name)).setIfAbsent
      "patient_age" (Val.vNat p.patient_age)).setIfAbsent "patient_job"
      (Val.vStr p.patient_job)).set "patient_verhalten_memo"
      (Val.vStr p.verhalten_memo)).set "patient_verhalten"
      (Val.vStr p.verhalten_text)).set "patient_hauptanweisung"
      (Val.vStr hauptanweisung)).getStr "patient_name" ++ ", " ++ p.patient_phrase
            ++ ". Du arbeitest als " ++ ((((((t.setIfAbsent "patient_name" (Val.vStr p.patient_name)).setIfAbsent
      "patient_age" (Val.vNat p.patient_age)).setIfAbsent "patient_job"
      (Val.vStr p.patient_job)).set "patient_verhalten_memo"
      (Val.vStr p.verhalten_memo)).set "patient_verhalten"
      (Val.vStr p.verhalten_text)).set "patient_hauptanweisung"
      (Val.vStr hauptanweisung)).getStr "patient_job" ++ ".")
          ++ "\n" ++ ((((((t.setIfAbsent "patient_name" (Val.vStr p.patient_name)).setIfAbsent
      "patient_age" (Val.vNat p.patient_age)).setIfAbsent "patient_job"
      (Val.vStr p.patient_job)).set "patient_verhalten_memo"
      (Val.vStr p.verhalten_memo)).set "patient_verhalten"
      (Val.vStr p.verhalten_text)).set "patient_hauptanweisung"
      (Val.vStr hauptanweisung)).getStr "patient_verhalten" ++ ". "
          ++ ((((((t.setIfAbsent "patient_name" (Val.vStr p.patient_name)).setIfAbsent
      "patient_age" (Val.vNat p.patient_age)).setIfAbsent "patient_job"
      (Val.vStr p.patient_job)).set "patient_verhalten_memo"
      (Val.vStr p.verhalten_memo)).set "patient_verhalten"
      (Val.vStr p.verhalten_text)).set "patient_hauptanweisung"
      (Val.vStr hauptanweisung)).getStr "patient_hauptanweisung" ++ ".\n\n"
          ++ ((((((t.setIfAbsent "patient_name" (Val.vStr p.patient_name)).setIfAbsent
      "patient_age" (Val.vNat p.patient_age)).setIfAbsent "patient_job"
      (Val.vStr p.patient_job)).set "patient_verhalten_memo"
      (Val.vStr p.verhalten_memo)).set "patient_verhalten"
      (Val.vStr p.verhalten_text)).set "patient_hauptanweisung"
      (Val.vStr hauptanweisung)).getStr "diagnose_features" ++ "\n")) := by
    unfold prepare_fall_session_state
    rw [if_neg (by rw [hck]; simp)]
  rw [heq, Session.lookup_set_self]
  have hsz : ((((((t.setIfAbsent "patient_name" (Val.vStr p.patient_name)).setIfAbsent
      "patient_age" (Val.vNat p.patient_age)).setIfAbsent "patient_job"
      (Val.vStr p.patient_job)).set "patient_verhalten_memo"
      (Val.vStr p.verhalten_memo)).set "patient_verhalten"
      (Val.vStr p.verhalten_text)).set "patient_hauptanweisung"
      (Val.vStr hauptanweisung)).getStr "diagnose_szenario" = t.getStr "diagnose_szenario" := by
    simp [Session.getStr, Session.lookup_set_ne, Session.lookup_setIfAbsent_ne]
  have hfe : ((((((t.setIfAbsent "patient_name" (Val.vStr p.patient_name)).setIfAbsent
      "patient_age" (Val.vNat p.patient_age)).setIfAbsent "patient_job"
      (Val.vStr p.patient_job)).set "patient_verhalten_memo"
      (Val.vStr p.verhalten_memo)).set "patient_verhalten"
      (Val.vStr p.verhalten_text)).set "patient_hauptanweisung"
      (Val.vStr hauptanweisung)).getStr "diagnose_features" = t.getStr "diagnose_features" := by
    simp [Session.getStr, Session.lookup_set_ne, Session.lookup_setIfAbsent_ne]
  rw [hsz, hfe]
  exact ⟨"\nPatientensimulation – ",
    "\n\n" ++ ("Du bist " ++ ((((((t.setIfAbsent "patient_name" (Val.vStr p.patient_name)).setIfAbsent
      "patient_age" (Val.vNat p.patient_age)).setIfAbsent "patient_job"
      (Val.vStr p.patient_job)).set "patient_verhalten_memo"
      (Val.vStr p.verhalten_memo)).set "patient_verhalten"
      (Val.vStr p.verhalten_text)).set "patient_hauptanweisung"
      (Val.vStr hauptanweisung)).getStr "patient_name" ++ ", "
        ++ p.patient_phrase ++ ". Du arbeitest als "
        ++ ((((((t.setIfAbsent "patient_name" (Val.vStr p.patient_name)).setIfAbsent
      "patient_age" (Val.vNat p.patient_age)).setIfAbsent "patient_job"
      (Val.vStr p.patient_job)).set "patient_verhalten_memo"
      (Val.vStr p.verhalten_memo)).set "patient_verhalten"
      (Val.vStr p.verhalten_text)).set "patient_hauptanweisung"
      (Val.vStr hauptanweisung)).getStr "patient_job" ++ ".")
      ++ "\n" ++ ((((((t.setIfAbsent "patient_name" (Val.vStr p.patient_name)).setIfAbsent
      "patient_age" (Val.vNat p.patient_age)).setIfAbsent "patient_job"
      (Val.vStr p.patient_job)).set "patient_verhalten_memo"
      (Val.vStr p.verhalten_memo)).set "patient_verhalten"
      (Val.vStr p.verhalten_text)).set "patient_hauptanweisung"
      (Val.vStr hauptanweisung)).getStr "patient_verhalten" ++ ". "
      ++ ((((((t.setIfAbsent "patient_name" (Val.vStr p.patient_name)).setIfAbsent
      "patient_age" (Val.vNat p.patient_age)).setIfAbsent "patient_job"
      (Val.vStr p.patient_job)).set "patient_verhalten_memo"
      (Val.vStr p.verhalten_memo)).set "patient_verhalten"
      (Val.vStr p.verhalten_text)).set "patient_hauptanweisung"
      (Val.vStr hauptanweisung)).getStr "patient_hauptanweisung" ++ ".\n\n",
    "\n", by simp [String.append_assoc]⟩

/-- C8: loading a case copies the selected row's `Szenario`, `Beschreibung`
and `Körperliche Untersuchung` into `diagnose_szenario`,
`diagnose_features` and `koerper_befund_tip`, and
`prepare_fall_session_state` then builds `SYSTEM_PROMPT` as a string
containing both `diagnose_szenario` and `diagnose_features`, so the case
diagnosis and description always appear in the anamnesis prompt. -/
theorem fallauswahl_system_prompt (df : List FallRow) (szenario : Option String)
    (i : Nat) (coin : Bool) (p : PersonParams) (s : Session) (fall : FallRow)
    (hdf : df.isEmpty = false) (hok : waehle_fall df szenario i = .ok fall) :
    (fallauswahl_prompt df szenario i coin s).lookup "diagnose_szenario"
        = some (.vStr fall.szenario)
    ∧ (fallauswahl_prompt df szenario i coin s).lookup "diagnose_features"
        = some (.vStr fall.beschreibung)
    ∧ (fallauswahl_prompt df szenario i coin s).lookup "koerper_befund_tip"
        = some (.vStr fall.koerperliche_untersuchung)
    ∧ ∃ a b c, (prepare_fall_session_state p
          (fallauswahl_prompt df szenario i coin s)).lookup "SYSTEM_PROMPT"
        = some (.vStr (a ++ fall.szenario ++ b ++ fall.beschreibung ++ c)) := by
  obtain ⟨g, hs1⟩ : ∃ g, fallauswahl_prompt df szenario i coin s
      = ((((s.set "diagnose_szenario" (.vStr fall.szenario)).set
          "diagnose_features" (.vStr fall.beschreibung)).set "koerper_befund_tip"
          (.vStr fall.koerperliche_untersuchung)).set "patient_alter_basis"
          (match fall.alter with | some a => .vInt a | none => .vNone)).set
          "patient_gender" (.vStr g) := by
    refine ⟨(if pyLower (pyStrip fall.geschlecht) = "n"
        then (if coin then "m" else "w")
        else if pyLower (pyStrip fall.geschlecht) = "m"
            || pyLower (pyStrip fall.geschlecht) = "w"
          then pyLower (pyStrip fall.geschlecht) else ""), ?_⟩
    unfold fallauswahl_prompt
    rw [if_neg (by rw [hdf]; simp), hok]
  have h1 : (fallauswahl_prompt df szenario i coin s).lookup "diagnose_szenario"
      = some (.vStr fall.szenario) := by
    rw [hs1]
    simp [Session.lookup_set_self, Session.lookup_set_ne]
  have h2 : (fallauswahl_prompt df szenario i coin s).lookup "diagnose_features"
      = some (.vStr fall.beschreibung) := by
    rw [hs1]
    simp [Session.lookup_set_self, Session.lookup_set_ne]
  have h3 : (fallauswahl_prompt df szenario i coin s).lookup "koerper_befund_tip"
      = some (.vStr fall.koerperliche_untersuchung) := by
    rw [hs1]
    simp [Session.lookup_set_self, Session.lookup_set_ne]
  refine ⟨h1, h2, h3, ?_⟩
  obtain ⟨a, b, c, habc⟩ := prepare_system_prompt_decomp p
    (fallauswahl_prompt df szenario i coin s)
    (by rw [Session.containsKey, h1]; rfl)
  refine ⟨a, b, c, ?_⟩
  rw [habc, Session.getStr, h1, Session.getStr, h2]

/-- Witness for C8 at a concrete one-row table and concrete person data. -/
theorem fallauswahl_system_prompt_witness :
    (fallauswahl_prompt [⟨1, "Angina tonsillaris", "Halsschmerzen", "K", none,
        "w"⟩] (some "Angina tonsillaris") 0 true []).lookup "diagnose_szenario"
      = some (.vStr "Angina tonsillaris")
    ∧ ∃ a b c, (prepare_fall_session_state ⟨"Mia Muster", 30, "Lehrerin",
          "knapp", "knapp.", "eine 30-jährige Patientin"⟩
        (fallauswahl_prompt [⟨1, "Angina tonsillaris", "Halsschmerzen", "K",
          none, "w"⟩] (some "Angina tonsillaris") 0 true [])).lookup
          "SYSTEM_PROMPT"
      = some (.vStr (a ++ "Angina tonsillaris" ++ b ++ "Halsschmerzen" ++ c)) := by
  have h := fallauswahl_system_prompt
    [⟨1, "Angina tonsillaris", "Halsschmerzen", "K", none, "w"⟩]
    (some "Angina tonsillaris") 0 true
    ⟨"Mia Muster", 30, "Lehrerin", "knapp", "knapp.",
      "eine 30-jährige Patientin"⟩ []
    ⟨1, "Angina tonsillaris", "Halsschmerzen", "K", none, "w"⟩
    (by decide) (by rfl)
  exact ⟨h.1, h.2.2.2⟩
